import Mathlib

/-!
Verification of the `gosmtpmail` message builder and dispatcher
(`smtp_email.go`) against its specification.

Modelling conventions (shallow embedding):

* A Go `string` is a byte sequence; we model it as `List Nat` (each byte a
  `Nat < 256`).  The program never decodes UTF-8 — it only concatenates,
  compares and base64-encodes bytes — so this is faithful, and non-ASCII
  subjects are simply byte lists with entries ≥ 128.
* `ascii` turns a Lean string literal into its byte list; it is only ever
  applied on ASCII literals appearing verbatim in the source.
* `multipart.Writer` (Go stdlib): its random boundary tokens are modelled as
  explicit parameters `boundary` / `altBoundary`; its `CreatePart` emits
  `--boundary\r\n` for the first part and `\r\n--boundary\r\n` afterwards,
  then the part's headers sorted by canonical key and a blank line
  (`mpPartStart`); `Close` emits `\r\n--boundary--\r\n` (`mpClose`).  Writes
  into the underlying `bytes.Buffer` never fail, so the writer-error paths of
  the source are unreachable in the model.
* `os.ReadFile` is the filesystem collaborator `fs : GoStr → Option GoStr`
  (`none` = read error), `mime.TypeByExtension` is the lookup collaborator
  `typeByExt : GoStr → GoStr` (Go returns `""` for unknown extensions), and
  `smtp.SendMail` is the transport collaborator returning `true` on success.
-/

/-- A Go string / byte slice: a list of bytes. -/
abbrev GoStr := List Nat

/-- Byte list of an ASCII string literal (codepoint = byte for ASCII). -/
def ascii (s : String) : GoStr := s.data.map Char.toNat

/-- The standard base64 alphabet used by Go's `base64.StdEncoding`. -/
def b64chars : GoStr :=
  ascii "ABCDEFGHIJKLMNOPQRSTUVWXYZabcdefghijklmnopqrstuvwxyz0123456789+/"

/-- Character for a 6-bit group. -/
def b64char (n : Nat) : Nat := b64chars.getD n 0

/-- Index of a base64 character in the alphabet (decoding table). -/
def b64val (c : Nat) : Nat := b64chars.indexOf c

/-- `base64.StdEncoding.EncodeToString`: 3 bytes → 4 chars, `=` (byte 61)
padding for a 1- or 2-byte tail. -/
def base64Encode : List Nat → List Nat
  | [] => []
  | [a] => [b64char (a / 4), b64char (a % 4 * 16), 61, 61]
  | [a, b] => [b64char (a / 4), b64char (a % 4 * 16 + b / 16),
               b64char (b % 16 * 4), 61]
  | a :: b :: c :: rest =>
      b64char (a / 4) :: b64char (a % 4 * 16 + b / 16) ::
      b64char (b % 16 * 4 + c / 64) :: b64char (c % 64) ::
      base64Encode rest

/-- Standard base64 decoding of a well-formed encoding (4-char groups, `=`
padding); used for stating the round-trip properties. -/
def base64Decode : List Nat → List Nat
  | c1 :: c2 :: c3 :: c4 :: rest =>
      if c3 = 61 then [b64val c1 * 4 + b64val c2 / 16]
      else if c4 = 61 then
        [b64val c1 * 4 + b64val c2 / 16, b64val c2 % 16 * 16 + b64val c3 / 4]
      else
        (b64val c1 * 4 + b64val c2 / 16) ::
        (b64val c2 % 16 * 16 + b64val c3 / 4) ::
        (b64val c3 % 4 * 64 + b64val c4) ::
        base64Decode rest
  | _ => []

/-- `EmailConfig` of `smtp_email.go` (field `AttachmentPathPfx` models the Go
field `AttachmentPathPrefix`). -/
structure EmailConfig where
  EmailAddress : GoStr
  Password : GoStr
  Host : GoStr
  Port : GoStr
  SenderName : GoStr
  ReplyTo : GoStr
  AttachmentPathPfx : GoStr
  BccAddressToSendCopy : GoStr
deriving DecidableEq

/-- Errors produced by `createEmailMessage` (`errors.New` values and the
`os.ReadFile` failure). -/
inductive BuildError where
  | invalidAttachmentPath (pfx : GoStr)
  | emptyBody
  | attachmentReadError
deriving DecidableEq

/-- `encodeHeader`: RFC 2047 B-encoded word over the UTF-8 bytes. -/
def encodeHeader (header : GoStr) : GoStr :=
  ascii "=?UTF-8?B?" ++ base64Encode header ++ ascii "?="

/-- `filepath.Ext`: the suffix from the final dot of the last path element;
empty when that element has no dot (path separator is `/` = byte 47, dot is
byte 46). -/
def goExt (p : GoStr) : GoStr :=
  let revtail := p.reverse.takeWhile (fun c => decide (c ≠ 47))
  if 46 ∈ revtail then 46 :: (revtail.takeWhile (fun c => decide (c ≠ 46))).reverse
  else []

/-- `filepath.Base`: the last path element, `"."` for the empty path, `"/"`
for an all-separator path. -/
def goBase (p : GoStr) : GoStr :=
  if p = [] then [46]
  else
    let q := p.reverse.dropWhile (fun c => decide (c = 47))
    let name := q.takeWhile (fun c => decide (c ≠ 47))
    if name = [] then [47] else name.reverse

/-- `multipart.Writer.CreatePart`: boundary line (first part has no leading
CRLF), header lines (already in canonical sorted order here), blank line. -/
def mpPartStart (isFirst : Bool) (bd headerLines : GoStr) : GoStr :=
  (if isFirst then [] else ascii "\r\n") ++ ascii "--" ++ bd ++ ascii "\r\n" ++
  headerLines ++ ascii "\r\n"

/-- `multipart.Writer.Close`: the closing boundary delimiter. -/
def mpClose (bd : GoStr) : GoStr := ascii "\r\n--" ++ bd ++ ascii "--\r\n"

/-- The header line of a `text/plain` body part. -/
def textPlainCT : GoStr := ascii "Content-Type: text/plain; charset=UTF-8\r\n"

/-- The header line of a `text/html` body part. -/
def textHtmlCT : GoStr := ascii "Content-Type: text/html; charset=UTF-8\r\n"

/-- The top-level headers written by `createEmailMessage` (the `fmt.Sprintf`
at its start), `To:` built by `strings.Join(tos, ", ")`. -/
def messageHeaders (cfg : EmailConfig) (boundary subject : GoStr)
    (tos : List GoStr) : GoStr :=
  ascii "MIME-Version: 1.0\r\nFrom: " ++ encodeHeader cfg.SenderName ++
  ascii " <" ++ cfg.EmailAddress ++ ascii ">\r\nTo: " ++
  List.intercalate (ascii ", ") tos ++ ascii "\r\nSubject: " ++
  encodeHeader subject ++ ascii "\r\nReply-To: " ++ cfg.ReplyTo ++
  ascii "\r\nContent-Type: multipart/mixed; boundary=" ++ boundary ++
  ascii "\r\n\r\n"

/-- The nested `multipart/alternative` section emitted when both bodies are
non-empty: its opening part under the outer boundary, then exactly two parts
under `altBoundary` — plain first, HTML second — and its closing delimiter. -/
def altSection (boundary altBoundary body htmlBody : GoStr) : GoStr :=
  ascii "--" ++ boundary ++
  ascii "\r\nContent-Type: multipart/alternative; boundary=" ++ altBoundary ++
  ascii "\r\n\r\n" ++
  mpPartStart true altBoundary textPlainCT ++ body ++
  mpPartStart false altBoundary textHtmlCT ++ htmlBody ++
  mpClose altBoundary

/-- The attachment part's header lines, in the sorted order Go's multipart
writer emits them (Disposition < Transfer-Encoding < Type). -/
def attachmentHeaderLines (typeByExt : GoStr → GoStr) (ap : GoStr) : GoStr :=
  ascii "Content-Disposition: attachment; filename=\"" ++ goBase ap ++
  ascii "\"\r\n" ++
  ascii "Content-Transfer-Encoding: base64\r\n" ++
  ascii "Content-Type: " ++ typeByExt (goExt ap) ++ ascii "\r\n"

/-- The body section: the three-way case split of `createEmailMessage` on
which bodies are non-empty.  The `Bool` records whether a part was created
through the OUTER writer (it is `false` in the both-bodies case, where the
outer part line is written by hand, so the outer writer's next part omits the
leading CRLF). -/
def bodySection (boundary altBoundary body htmlBody : GoStr) :
    Except BuildError (GoStr × Bool) :=
  if body ≠ [] ∧ htmlBody ≠ [] then
    .ok (altSection boundary altBoundary body htmlBody, false)
  else if body ≠ [] then
    .ok (mpPartStart true boundary textPlainCT ++ body, true)
  else if htmlBody ≠ [] then
    .ok (mpPartStart true boundary textHtmlCT ++ htmlBody, true)
  else
    .error .emptyBody

/-- `createEmailMessage(subject, body, htmlBody, attachmentPath, tos)`:
prefix check, headers, body section, optional attachment part
(base64-encoded file contents), closing boundary. -/
def createEmailMessage (cfg : EmailConfig) (boundary altBoundary : GoStr)
    (fs : GoStr → Option GoStr) (typeByExt : GoStr → GoStr)
    (subject body htmlBody attachmentPath : GoStr) (tos : List GoStr) :
    Except BuildError GoStr :=
  let pfx := cfg.AttachmentPathPfx ++ ascii "/"
  if attachmentPath ≠ [] ∧ ¬ pfx.isPrefixOf attachmentPath then
    .error (.invalidAttachmentPath pfx)
  else
    match bodySection boundary altBoundary body htmlBody with
    | .error e => .error e
    | .ok (bp, hasPart) =>
      if attachmentPath ≠ [] then
        match fs attachmentPath with
        | none => .error .attachmentReadError
        | some content =>
            .ok (messageHeaders cfg boundary subject tos ++ bp ++
                 mpPartStart (!hasPart) boundary
                   (attachmentHeaderLines typeByExt attachmentPath) ++
                 base64Encode content ++ mpClose boundary)
      else
        .ok (messageHeaders cfg boundary subject tos ++ bp ++ mpClose boundary)

/-- `emailAuth`: `smtp.PlainAuth("", address, password, host)` modelled as
the credential triple handed over for the transport. -/
def emailAuth (cfg : EmailConfig) : GoStr × GoStr × GoStr :=
  (cfg.EmailAddress, cfg.Password, cfg.Host)

/-- The SMTP transport collaborator: `(addr, auth, from, recipients,
message) → success`. -/
abbrev Transport := GoStr → (GoStr × GoStr × GoStr) → GoStr → List GoStr → GoStr → Bool

/-- The envelope recipient list of `EmailSender`: `tos` plus the configured
BCC address when that is non-empty. -/
def envelopeRecipients (cfg : EmailConfig) (tos : List GoStr) : List GoStr :=
  if cfg.BccAddressToSendCopy ≠ [] then tos ++ [cfg.BccAddressToSendCopy]
  else tos

/-- `EmailSender`: build the message (with the ORIGINAL `tos`), return
`false` on build failure, otherwise hand the bytes and the envelope
recipients over for the transport and return its verdict. -/
def EmailSender (cfg : EmailConfig) (boundary altBoundary : GoStr)
    (fs : GoStr → Option GoStr) (typeByExt : GoStr → GoStr)
    (transport : Transport)
    (subject body htmlBody attachmentPath : GoStr) (tos : List GoStr) : Bool :=
  let auth := emailAuth cfg
  let recipients := envelopeRecipients cfg tos
  match createEmailMessage cfg boundary altBoundary fs typeByExt
      subject body htmlBody attachmentPath tos with
  | .error _ => false
  | .ok message =>
      transport (cfg.Host ++ ascii ":" ++ cfg.Port) auth cfg.EmailAddress
        recipients message

/-- RFC 2047 decoding of a B-encoded UTF-8 word, following the spec's words:
accept exactly the form of an encoded word and base64-decode the payload
(with strings modelled as their UTF-8 bytes, charset decoding is the
identity). -/
def rfc2047Decode (w : GoStr) : Option GoStr :=
  if (ascii "=?UTF-8?B?").isPrefixOf w ∧ (ascii "?=").isSuffixOf w ∧
      12 ≤ w.length then
    some (base64Decode ((w.drop 10).take ((w.drop 10).length - 2)))
  else none

/-- Bytes of a built message, `[]` on build failure (used for stating concrete
counterexamples without binders). -/
def builtBytes (cfg : EmailConfig) (boundary altBoundary : GoStr)
    (fs : GoStr → Option GoStr) (typeByExt : GoStr → GoStr)
    (subject body htmlBody attachmentPath : GoStr) (tos : List GoStr) : GoStr :=
  match createEmailMessage cfg boundary altBoundary fs typeByExt
      subject body htmlBody attachmentPath tos with
  | .ok m => m
  | .error _ => []

/-- The tail of a built message after its body section: just the closing
delimiter when `ap` is empty, otherwise the attachment part (header lines,
base64 payload of the file the filesystem returns) followed by the closing
delimiter.  `attFirst` is whether the outer writer had emitted no part yet
when the attachment part was created (true exactly in the both-bodies case,
where the opening body part was written by hand). -/
def TailSpec (fs : GoStr → Option GoStr) (typeByExt : GoStr → GoStr)
    (bd ap : GoStr) (attFirst : Bool) (tail : GoStr) : Prop :=
  (ap = [] ∧ tail = mpClose bd) ∨
  (ap ≠ [] ∧ ∃ content, fs ap = some content ∧
    tail = mpPartStart attFirst bd (attachmentHeaderLines typeByExt ap) ++
      base64Encode content ++ mpClose bd)

/-- Modelled from the Go stdlib: the builtin extension-to-type table of
`mime.TypeByExtension` (OS-specific additions are runtime state of that
collaborator and are not modelled); an unknown extension yields the empty
string, exactly as in Go. -/
def goTypeByExtension (ext : GoStr) : GoStr :=
  if ext = ascii ".avif" then ascii "image/avif"
  else if ext = ascii ".css" then ascii "text/css; charset=utf-8"
  else if ext = ascii ".gif" then ascii "image/gif"
  else if ext = ascii ".htm" then ascii "text/html; charset=utf-8"
  else if ext = ascii ".html" then ascii "text/html; charset=utf-8"
  else if ext = ascii ".jpeg" then ascii "image/jpeg"
  else if ext = ascii ".jpg" then ascii "image/jpeg"
  else if ext = ascii ".js" then ascii "text/javascript; charset=utf-8"
  else if ext = ascii ".json" then ascii "application/json"
  else if ext = ascii ".mjs" then ascii "text/javascript; charset=utf-8"
  else if ext = ascii ".pdf" then ascii "application/pdf"
  else if ext = ascii ".png" then ascii "image/png"
  else if ext = ascii ".svg" then ascii "image/svg+xml"
  else if ext = ascii ".wasm" then ascii "application/wasm"
  else if ext = ascii ".webp" then ascii "image/webp"
  else if ext = ascii ".xml" then ascii "text/xml; charset=utf-8"
  else []

/-- A concrete configuration used in witnesses and counterexamples. -/
def cfgEx : EmailConfig where
  EmailAddress := ascii "me@x.com"
  Password := ascii "pw"
  Host := ascii "smtp.x.com"
  Port := ascii "587"
  SenderName := ascii "Me"
  ReplyTo := ascii "re@x.com"
  AttachmentPathPfx := ascii "storage"
  BccAddressToSendCopy := ascii "bcc@x.com"

/-- A concrete filesystem collaborator: two readable files, everything else
fails. -/
def fsEx : GoStr → Option GoStr := fun p =>
  if p = ascii "storage/f.txt" then some (ascii "FILE")
  else if p = ascii "storage/f.zzz" then some [0, 255, 10]
  else none

/-- A concrete MIME lookup collaborator knowing only `.txt`. -/
def txEx : GoStr → GoStr := fun e =>
  if e = ascii ".txt" then ascii "text/plain; charset=utf-8" else []

/-- A transport that accepts every message. -/
def trAccept : Transport := fun _ _ _ _ _ => true

/-- A transport that rejects every message. -/
def trReject : Transport := fun _ _ _ _ _ => false

/-! ## Base64 round-trip -/

/-- Decoding table inverts the alphabet on all 6-bit values. -/
theorem b64_inv : ∀ n, n < 64 → b64val (b64char n) = n := by decide

/-- No alphabet character is the padding byte `=` (61). -/
theorem b64char_ne_pad : ∀ n, n < 64 → b64char n ≠ 61 := by decide

/-- Standard base64 decoding inverts encoding on every byte sequence. -/
theorem base64_roundtrip : ∀ bs : List Nat, (∀ b ∈ bs, b < 256) →
    base64Decode (base64Encode bs) = bs
  | [], _ => rfl
  | [a], h => by
      have ha : a < 256 := h a (by simp)
      simp only [base64Encode, base64Decode, if_pos]
      rw [b64_inv (a / 4) (by omega), b64_inv (a % 4 * 16) (by omega)]
      simp only [List.cons.injEq, and_true]
      omega
  | [a, b], h => by
      have ha : a < 256 := h a (by simp)
      have hb : b < 256 := h b (by simp)
      simp only [base64Encode, base64Decode]
      rw [if_neg (b64char_ne_pad (b % 16 * 4) (by omega)), if_pos trivial]
      rw [b64_inv (a / 4) (by omega), b64_inv (a % 4 * 16 + b / 16) (by omega),
        b64_inv (b % 16 * 4) (by omega)]
      simp only [List.cons.injEq, and_true]
      omega
  | a :: b :: c :: rest, h => by
      have ha : a < 256 := h a (by simp)
      have hb : b < 256 := h b (by simp)
      have hc : c < 256 := h c (by simp)
      have ih := base64_roundtrip rest (fun x hx => h x (by simp [hx]))
      simp only [base64Encode, base64Decode]
      rw [if_neg (b64char_ne_pad (b % 16 * 4 + c / 64) (by omega)),
        if_neg (b64char_ne_pad (c % 64) (by omega))]
      rw [b64_inv (a / 4) (by omega), b64_inv (a % 4 * 16 + b / 16) (by omega),
        b64_inv (b % 16 * 4 + c / 64) (by omega), b64_inv (c % 64) (by omega),
        ih]
      simp only [List.cons.injEq, and_true]
      refine ⟨by omega, by omega, by omega⟩

/-! ## Shape of a successfully built message -/

/-- A successful `bodySection` is one of the three body-part layouts, and
records through its flag whether the outer writer created the part. -/
theorem bodySection_eq_ok (bd abd body htmlBody bp : GoStr) (hasPart : Bool)
    (h : bodySection bd abd body htmlBody = .ok (bp, hasPart)) :
    (body ≠ [] ∧ htmlBody ≠ [] ∧ bp = altSection bd abd body htmlBody ∧
      hasPart = false) ∨
    (body ≠ [] ∧ htmlBody = [] ∧ bp = mpPartStart true bd textPlainCT ++ body ∧
      hasPart = true) ∨
    (body = [] ∧ htmlBody ≠ [] ∧ bp = mpPartStart true bd textHtmlCT ++ htmlBody ∧
      hasPart = true) := by
  unfold bodySection at h
  by_cases h1 : body ≠ [] ∧ htmlBody ≠ []
  · rw [if_pos h1] at h
    simp only [Except.ok.injEq, Prod.mk.injEq] at h
    exact Or.inl ⟨h1.1, h1.2, h.1.symm, h.2.symm⟩
  · rw [if_neg h1] at h
    by_cases h2 : body ≠ []
    · rw [if_pos h2] at h
      simp only [Except.ok.injEq, Prod.mk.injEq] at h
      refine Or.inr (Or.inl ⟨h2, ?_, h.1.symm, h.2.symm⟩)
      by_contra hh
      exact h1 ⟨h2, hh⟩
    · rw [if_neg h2] at h
      by_cases h3 : htmlBody ≠ []
      · rw [if_pos h3] at h
        simp only [Except.ok.injEq, Prod.mk.injEq] at h
        exact Or.inr (Or.inr ⟨by simpa using h2, h3, h.1.symm, h.2.symm⟩)
      · rw [if_neg h3] at h
        cases h

/-- Every successfully built message is the top-level headers, a body
section, and a tail (optional attachment part, closing delimiter). -/
theorem create_ok_shape (cfg : EmailConfig) (bd abd : GoStr)
    (fs : GoStr → Option GoStr) (tx : GoStr → GoStr)
    (subject body htmlBody ap : GoStr) (tos : List GoStr) (msg : GoStr)
    (hok : createEmailMessage cfg bd abd fs tx subject body htmlBody ap tos =
      .ok msg) :
    ∃ bp hasPart, bodySection bd abd body htmlBody = .ok (bp, hasPart) ∧
      ((ap = [] ∧ msg = messageHeaders cfg bd subject tos ++ bp ++ mpClose bd) ∨
       (ap ≠ [] ∧ ∃ content, fs ap = some content ∧
         msg = messageHeaders cfg bd subject tos ++ bp ++
           mpPartStart (!hasPart) bd (attachmentHeaderLines tx ap) ++
           base64Encode content ++ mpClose bd)) := by
  simp only [createEmailMessage] at hok
  by_cases hpre : ap ≠ [] ∧ ¬ (cfg.AttachmentPathPfx ++ ascii "/").isPrefixOf ap
  · rw [if_pos hpre] at hok
    cases hok
  · rw [if_neg hpre] at hok
    rcases hbs : bodySection bd abd body htmlBody with e | ⟨bp, hasPart⟩
    · rw [hbs] at hok
      cases hok
    · rw [hbs] at hok
      dsimp only [] at hok
      by_cases hap : ap ≠ []
      · rw [if_pos hap] at hok
        rcases hc : fs ap with _ | content
        · rw [hc] at hok
          cases hok
        · rw [hc] at hok
          simp only [Except.ok.injEq] at hok
          exact ⟨bp, hasPart, rfl, Or.inr ⟨hap, content, rfl, hok.symm⟩⟩
      · rw [if_neg hap] at hok
        simp only [Except.ok.injEq] at hok
        exact ⟨bp, hasPart, rfl, Or.inl ⟨by simpa using hap, hok.symm⟩⟩

/-! ## Claims -/

/-- C4: for every non-empty attachmentPath that does not start with the
configured prefix followed by `/`, the build fails with
`invalidAttachmentPath`, and the result is independent of the filesystem
collaborator — no file read is performed. -/
theorem create_invalidPath_noRead (cfg : EmailConfig) (bd abd : GoStr)
    (fs fs2 : GoStr → Option GoStr) (tx : GoStr → GoStr)
    (subject body htmlBody ap : GoStr) (tos : List GoStr)
    (hap : ap ≠ [])
    (hpre : (cfg.AttachmentPathPfx ++ ascii "/").isPrefixOf ap = false) :
    createEmailMessage cfg bd abd fs tx subject body htmlBody ap tos =
      .error (.invalidAttachmentPath (cfg.AttachmentPathPfx ++ ascii "/")) ∧
    createEmailMessage cfg bd abd fs2 tx subject body htmlBody ap tos =
      createEmailMessage cfg bd abd fs tx subject body htmlBody ap tos := by
  have hcond : ap ≠ [] ∧ ¬ (cfg.AttachmentPathPfx ++ ascii "/").isPrefixOf ap :=
    ⟨hap, by simp [hpre]⟩
  constructor
  · simp only [createEmailMessage]
    rw [if_pos hcond]
  · simp only [createEmailMessage]
    rw [if_pos hcond, if_pos hcond]

/-- C4 witness: a concrete path outside the `storage/` root is rejected. -/
theorem create_invalidPath_noRead_witness :
    createEmailMessage cfgEx (ascii "B") (ascii "A") fsEx txEx (ascii "s")
        (ascii "b") [] (ascii "evil/f.txt") [ascii "a@x.com"] =
      .error (.invalidAttachmentPath (ascii "storage/")) ∧
    createEmailMessage cfgEx (ascii "B") (ascii "A") (fun _ => none) txEx
        (ascii "s") (ascii "b") [] (ascii "evil/f.txt") [ascii "a@x.com"] =
      createEmailMessage cfgEx (ascii "B") (ascii "A") fsEx txEx (ascii "s")
        (ascii "b") [] (ascii "evil/f.txt") [ascii "a@x.com"] :=
  create_invalidPath_noRead cfgEx (ascii "B") (ascii "A") fsEx (fun _ => none)
    txEx (ascii "s") (ascii "b") [] (ascii "evil/f.txt") [ascii "a@x.com"]
    (by decide) (by decide)

/-- C10: when the configured prefix is empty the required path start is just
`/`, so every non-empty attachment path not beginning with `/` is rejected
with the invalid-path error. -/
theorem emptyPrefixRoot_rejects_relative (cfg : EmailConfig) (bd abd : GoStr)
    (fs : GoStr → Option GoStr) (tx : GoStr → GoStr)
    (subject body htmlBody ap : GoStr) (tos : List GoStr)
    (hpfx : cfg.AttachmentPathPfx = []) (hap : ap ≠ [])
    (hsl : (ascii "/").isPrefixOf ap = false) :
    createEmailMessage cfg bd abd fs tx subject body htmlBody ap tos =
      .error (.invalidAttachmentPath (ascii "/")) := by
  have hcond : ap ≠ [] ∧ ¬ (cfg.AttachmentPathPfx ++ ascii "/").isPrefixOf ap := by
    rw [hpfx]
    exact ⟨hap, by simp [hsl]⟩
  simp only [createEmailMessage]
  rw [if_pos hcond, hpfx]
  rfl

/-- C10 witness: with an empty configured prefix, even the otherwise-valid
relative path `storage/f.txt` is rejected. -/
theorem emptyPrefixRoot_rejects_relative_witness :
    createEmailMessage { cfgEx with AttachmentPathPfx := [] } (ascii "B")
        (ascii "A") fsEx txEx (ascii "s") (ascii "b") []
        (ascii "storage/f.txt") [ascii "a@x.com"] =
      .error (.invalidAttachmentPath (ascii "/")) :=
  emptyPrefixRoot_rejects_relative { cfgEx with AttachmentPathPfx := [] }
    (ascii "B") (ascii "A") fsEx txEx (ascii "s") (ascii "b") []
    (ascii "storage/f.txt") [ascii "a@x.com"] rfl (by decide) (by decide)

/-- C3 counterexample: with both bodies empty and an attachment path that
fails the prefix check, the build fails with `invalidAttachmentPath`, not
with `emptyBody` — the prefix check runs first. -/
theorem create_emptyBody_counterexample :
    createEmailMessage cfgEx (ascii "B") (ascii "A") fsEx txEx (ascii "s")
        [] [] (ascii "x") [ascii "a@x.com"] =
      .error (.invalidAttachmentPath (ascii "storage/")) ∧
    BuildError.invalidAttachmentPath (ascii "storage/") ≠ .emptyBody :=
  ⟨rfl, by decide⟩

/-- C3 (amended): with both bodies empty the build always fails; the error
is `emptyBody` whenever the attachment path is empty or passes the prefix
check (otherwise it is the invalid-path error, which is checked first). -/
theorem create_emptyBody_amended (cfg : EmailConfig) (bd abd : GoStr)
    (fs : GoStr → Option GoStr) (tx : GoStr → GoStr)
    (subject ap : GoStr) (tos : List GoStr)
    (hpass : ap = [] ∨ (cfg.AttachmentPathPfx ++ ascii "/").isPrefixOf ap = true) :
    createEmailMessage cfg bd abd fs tx subject [] [] ap tos =
      .error .emptyBody ∧
    ∀ ap2 msg, createEmailMessage cfg bd abd fs tx subject [] [] ap2 tos ≠
      .ok msg := by
  constructor
  · have hcond : ¬ (ap ≠ [] ∧ ¬ (cfg.AttachmentPathPfx ++ ascii "/").isPrefixOf ap) := by
      rcases hpass with h | h
      · simp [h]
      · simp [h]
    simp only [createEmailMessage]
    rw [if_neg hcond]
    rfl
  · intro ap2 msg hok
    obtain ⟨bp, hasPart, hbs, _⟩ := create_ok_shape cfg bd abd fs tx subject
      [] [] ap2 tos msg hok
    rcases bodySection_eq_ok bd abd [] [] bp hasPart hbs with
      ⟨h1, _⟩ | ⟨h1, _⟩ | ⟨_, h2, _⟩
    · exact h1 rfl
    · exact h1 rfl
    · exact h2 rfl

/-- C3 witness: both bodies empty with an empty attachment path gives the
`emptyBody` error, and no choice of attachment path lets the build succeed. -/
theorem create_emptyBody_amended_witness :
    createEmailMessage cfgEx (ascii "B") (ascii "A") fsEx txEx (ascii "s")
        [] [] [] [ascii "a@x.com"] = .error .emptyBody ∧
    ∀ ap2 msg, createEmailMessage cfgEx (ascii "B") (ascii "A") fsEx txEx
      (ascii "s") [] [] ap2 [ascii "a@x.com"] ≠ .ok msg :=
  create_emptyBody_amended cfgEx (ascii "B") (ascii "A") fsEx txEx (ascii "s")
    [] [ascii "a@x.com"] (Or.inl rfl)

set_option maxRecDepth 40000 in
/-- C9 counterexample: the same inputs with two different randomly drawn
boundary tokens produce different (both successfully built) byte sequences,
so two invocations of the builder are not byte-identical. -/
theorem create_not_boundary_independent :
    builtBytes cfgEx (ascii "B1") (ascii "A") fsEx txEx (ascii "s")
        (ascii "b") [] [] [ascii "a@x.com"] ≠
      builtBytes cfgEx (ascii "B2") (ascii "A") fsEx txEx (ascii "s")
        (ascii "b") [] [] [ascii "a@x.com"] ∧
    builtBytes cfgEx (ascii "B1") (ascii "A") fsEx txEx (ascii "s")
        (ascii "b") [] [] [ascii "a@x.com"] ≠ [] ∧
    builtBytes cfgEx (ascii "B2") (ascii "A") fsEx txEx (ascii "s")
        (ascii "b") [] [] [ascii "a@x.com"] ≠ [] := by
  refine ⟨by decide, by decide, by decide⟩

/-- C9 (amended): the builder is deterministic given its inputs AND the
randomly generated boundary tokens — fixed input, configuration, file
contents and boundary draws yield identical bytes. -/
theorem create_deterministic (cfg : EmailConfig) (bd1 abd1 bd2 abd2 : GoStr)
    (fs : GoStr → Option GoStr) (tx : GoStr → GoStr)
    (subject body htmlBody ap : GoStr) (tos : List GoStr)
    (hbd : bd1 = bd2) (habd : abd1 = abd2) :
    createEmailMessage cfg bd1 abd1 fs tx subject body htmlBody ap tos =
      createEmailMessage cfg bd2 abd2 fs tx subject body htmlBody ap tos := by
  rw [hbd, habd]

/-- C9 witness: equal boundary draws give equal bytes on a concrete input. -/
theorem create_deterministic_witness :
    createEmailMessage cfgEx (ascii "B1") (ascii "A") fsEx txEx (ascii "s")
        (ascii "b") [] [] [ascii "a@x.com"] =
      createEmailMessage cfgEx (ascii "B1") (ascii "A") fsEx txEx (ascii "s")
        (ascii "b") [] [] [ascii "a@x.com"] :=
  create_deterministic cfgEx (ascii "B1") (ascii "A") (ascii "B1") (ascii "A")
    fsEx txEx (ascii "s") (ascii "b") [] [] [ascii "a@x.com"] rfl rfl

/-- C5: when message construction fails, `EmailSender` returns false and the
result does not depend on the transport (the transport is never invoked);
and `EmailSender` returns true exactly when the build succeeds and the
transport accepts the built message. -/
theorem emailSender_failFast (cfg : EmailConfig) (bd abd : GoStr)
    (fs : GoStr → Option GoStr) (tx : GoStr → GoStr) (tr tr2 : Transport)
    (subject body htmlBody ap : GoStr) (tos : List GoStr) :
    ((∃ e, createEmailMessage cfg bd abd fs tx subject body htmlBody ap tos =
        .error e) →
      EmailSender cfg bd abd fs tx tr subject body htmlBody ap tos = false ∧
      EmailSender cfg bd abd fs tx tr subject body htmlBody ap tos =
        EmailSender cfg bd abd fs tx tr2 subject body htmlBody ap tos) ∧
    (EmailSender cfg bd abd fs tx tr subject body htmlBody ap tos = true ↔
      ∃ msg, createEmailMessage cfg bd abd fs tx subject body htmlBody ap tos =
          .ok msg ∧
        tr (cfg.Host ++ ascii ":" ++ cfg.Port) (emailAuth cfg) cfg.EmailAddress
          (envelopeRecipients cfg tos) msg = true) := by
  unfold EmailSender
  rcases hcr : createEmailMessage cfg bd abd fs tx subject body htmlBody ap tos
    with e | m
  · constructor
    · intro _
      exact ⟨rfl, rfl⟩
    · constructor
      · intro hf
        cases hf
      · rintro ⟨msg, hmsg, -⟩
        cases hmsg
  · constructor
    · rintro ⟨e, he⟩
      cases he
    · constructor
      · intro ht
        exact ⟨m, rfl, ht⟩
      · rintro ⟨msg, hmsg, htr⟩
        injection hmsg with hm
        rw [hm]
        exact htr

/-- C5 witness: on a concrete failing build (both bodies empty) the sender
returns false whatever the transport would have answered. -/
theorem emailSender_failFast_witness :
    EmailSender cfgEx (ascii "B") (ascii "A") fsEx txEx trAccept (ascii "s")
      [] [] [] [ascii "a@x.com"] = false :=
  ((emailSender_failFast cfgEx (ascii "B") (ascii "A") fsEx txEx trAccept
    trReject (ascii "s") [] [] [] [ascii "a@x.com"]).1
    ⟨.emptyBody, rfl⟩).1

/-- C2: with a non-empty configured BCC address the envelope recipient list
handed over for the transport is exactly the original `tos` plus the BCC
address (so it contains all of them), while the built message starts with
the serialized headers whose `To:` field is the comma-join of the original
`tos` only, and the built bytes do not depend on the BCC field at all. -/
theorem emailSender_bccEnvelope (cfg : EmailConfig) (bd abd : GoStr)
    (fs : GoStr → Option GoStr) (tx : GoStr → GoStr) (tr : Transport)
    (subject body htmlBody ap : GoStr) (tos : List GoStr) (bcc2 : GoStr)
    (hbcc : cfg.BccAddressToSendCopy ≠ []) :
    envelopeRecipients cfg tos = tos ++ [cfg.BccAddressToSendCopy] ∧
    (∀ a ∈ tos, a ∈ envelopeRecipients cfg tos) ∧
    cfg.BccAddressToSendCopy ∈ envelopeRecipients cfg tos ∧
    (∀ msg, createEmailMessage cfg bd abd fs tx subject body htmlBody ap tos =
        .ok msg →
      (∃ rest, msg = messageHeaders cfg bd subject tos ++ rest) ∧
      EmailSender cfg bd abd fs tx tr subject body htmlBody ap tos =
        tr (cfg.Host ++ ascii ":" ++ cfg.Port) (emailAuth cfg) cfg.EmailAddress
          (tos ++ [cfg.BccAddressToSendCopy]) msg) ∧
    createEmailMessage { cfg with BccAddressToSendCopy := bcc2 } bd abd fs tx
        subject body htmlBody ap tos =
      createEmailMessage cfg bd abd fs tx subject body htmlBody ap tos := by
  have henv : envelopeRecipients cfg tos = tos ++ [cfg.BccAddressToSendCopy] := by
    simp [envelopeRecipients, hbcc]
  refine ⟨henv, ?_, ?_, ?_, ?_⟩
  · intro a ha
    rw [henv]
    exact List.mem_append_left _ ha
  · rw [henv]
    exact List.mem_append_right _ (by simp)
  · intro msg hok
    constructor
    · obtain ⟨bp, hasPart, -, hsh⟩ := create_ok_shape cfg bd abd fs tx subject
        body htmlBody ap tos msg hok
      rcases hsh with ⟨-, hmsg⟩ | ⟨-, content, -, hmsg⟩
      · exact ⟨bp ++ mpClose bd, by rw [hmsg]; try simp [List.append_assoc]⟩
      · exact ⟨bp ++ mpPartStart (!hasPart) bd (attachmentHeaderLines tx ap) ++
          base64Encode content ++ mpClose bd,
          by rw [hmsg]; try simp [List.append_assoc]⟩
    · unfold EmailSender
      rw [hok, henv]
  · rfl

/-- C2 witness: a concrete send with `bcc@x.com` configured hands the
transport both original recipients plus the BCC, with the `To:` header built
from the original recipients only. -/
theorem emailSender_bccEnvelope_witness :
    envelopeRecipients cfgEx [ascii "a@x.com", ascii "b@x.com"] =
      [ascii "a@x.com", ascii "b@x.com"] ++ [ascii "bcc@x.com"] ∧
    (∀ a ∈ [ascii "a@x.com", ascii "b@x.com"],
      a ∈ envelopeRecipients cfgEx [ascii "a@x.com", ascii "b@x.com"]) ∧
    ascii "bcc@x.com" ∈ envelopeRecipients cfgEx [ascii "a@x.com", ascii "b@x.com"] ∧
    (∀ msg, createEmailMessage cfgEx (ascii "B") (ascii "A") fsEx txEx
        (ascii "s") (ascii "b") [] [] [ascii "a@x.com", ascii "b@x.com"] =
        .ok msg →
      (∃ rest, msg = messageHeaders cfgEx (ascii "B") (ascii "s")
        [ascii "a@x.com", ascii "b@x.com"] ++ rest) ∧
      EmailSender cfgEx (ascii "B") (ascii "A") fsEx txEx trAccept (ascii "s")
          (ascii "b") [] [] [ascii "a@x.com", ascii "b@x.com"] =
        trAccept (cfgEx.Host ++ ascii ":" ++ cfgEx.Port) (emailAuth cfgEx)
          cfgEx.EmailAddress
          ([ascii "a@x.com", ascii "b@x.com"] ++ [ascii "bcc@x.com"]) msg) ∧
    createEmailMessage { cfgEx with BccAddressToSendCopy := ascii "other@x.com" }
        (ascii "B") (ascii "A") fsEx txEx (ascii "s") (ascii "b") [] []
        [ascii "a@x.com", ascii "b@x.com"] =
      createEmailMessage cfgEx (ascii "B") (ascii "A") fsEx txEx (ascii "s")
        (ascii "b") [] [] [ascii "a@x.com", ascii "b@x.com"] :=
  emailSender_bccEnvelope cfgEx (ascii "B") (ascii "A") fsEx txEx trAccept
    (ascii "s") (ascii "b") [] [] [ascii "a@x.com", ascii "b@x.com"]
    (ascii "other@x.com") (by decide)

/-- C1: the body-part layout of every successfully built message is chosen
by exactly three mutually exclusive cases on which bodies are non-empty —
both non-empty gives the nested `multipart/alternative` section (its own
boundary, exactly two parts, plain before HTML); only plain gives a single
`text/plain; charset=UTF-8` part directly under the outer `multipart/mixed`;
only HTML gives a single `text/html; charset=UTF-8` part there — in each
case followed only by the optional attachment part and the closing
delimiter. -/
theorem create_bodyPartTrichotomy (cfg : EmailConfig) (bd abd : GoStr)
    (fs : GoStr → Option GoStr) (tx : GoStr → GoStr)
    (subject body htmlBody ap : GoStr) (tos : List GoStr) (msg : GoStr)
    (hok : createEmailMessage cfg bd abd fs tx subject body htmlBody ap tos =
      .ok msg) :
    (body ≠ [] ∧ htmlBody ≠ [] ∧ ∃ tail, TailSpec fs tx bd ap true tail ∧
      msg = messageHeaders cfg bd subject tos ++
        altSection bd abd body htmlBody ++ tail) ∨
    (body ≠ [] ∧ htmlBody = [] ∧ ∃ tail, TailSpec fs tx bd ap false tail ∧
      msg = messageHeaders cfg bd subject tos ++
        (mpPartStart true bd textPlainCT ++ body) ++ tail) ∨
    (body = [] ∧ htmlBody ≠ [] ∧ ∃ tail, TailSpec fs tx bd ap false tail ∧
      msg = messageHeaders cfg bd subject tos ++
        (mpPartStart true bd textHtmlCT ++ htmlBody) ++ tail) := by
  obtain ⟨bp, hasPart, hbs, hsh⟩ := create_ok_shape cfg bd abd fs tx subject
    body htmlBody ap tos msg hok
  rcases bodySection_eq_ok bd abd body htmlBody bp hasPart hbs with
    ⟨hb, hh, hbp, hfl⟩ | ⟨hb, hh, hbp, hfl⟩ | ⟨hb, hh, hbp, hfl⟩
  · refine Or.inl ⟨hb, hh, ?_⟩
    subst hbp hfl
    rcases hsh with ⟨hap, hmsg⟩ | ⟨hap, content, hc, hmsg⟩
    · exact ⟨mpClose bd, Or.inl ⟨hap, rfl⟩,
        by rw [hmsg]; try simp [List.append_assoc]⟩
    · exact ⟨mpPartStart true bd (attachmentHeaderLines tx ap) ++
        base64Encode content ++ mpClose bd,
        Or.inr ⟨hap, content, hc, rfl⟩,
        by rw [hmsg]; try simp [List.append_assoc]⟩
  · refine Or.inr (Or.inl ⟨hb, hh, ?_⟩)
    subst hbp hfl
    rcases hsh with ⟨hap, hmsg⟩ | ⟨hap, content, hc, hmsg⟩
    · exact ⟨mpClose bd, Or.inl ⟨hap, rfl⟩,
        by rw [hmsg]; try simp [List.append_assoc]⟩
    · exact ⟨mpPartStart false bd (attachmentHeaderLines tx ap) ++
        base64Encode content ++ mpClose bd,
        Or.inr ⟨hap, content, hc, rfl⟩,
        by rw [hmsg]; try simp [List.append_assoc]⟩
  · refine Or.inr (Or.inr ⟨hb, hh, ?_⟩)
    subst hbp hfl
    rcases hsh with ⟨hap, hmsg⟩ | ⟨hap, content, hc, hmsg⟩
    · exact ⟨mpClose bd, Or.inl ⟨hap, rfl⟩,
        by rw [hmsg]; try simp [List.append_assoc]⟩
    · exact ⟨mpPartStart false bd (attachmentHeaderLines tx ap) ++
        base64Encode content ++ mpClose bd,
        Or.inr ⟨hap, content, hc, rfl⟩,
        by rw [hmsg]; try simp [List.append_assoc]⟩

/-- C1 witness: a concrete build with both bodies and an attachment lands in
the first (nested alternative) case with the attachment tail. -/
theorem create_bodyPartTrichotomy_witness :
    (ascii "b" ≠ ([] : GoStr) ∧ ascii "<p>h</p>" ≠ ([] : GoStr) ∧
      ∃ tail, TailSpec fsEx txEx (ascii "B") (ascii "storage/f.txt") true tail ∧
      builtBytes cfgEx (ascii "B") (ascii "A") fsEx txEx (ascii "s")
          (ascii "b") (ascii "<p>h</p>") (ascii "storage/f.txt")
          [ascii "a@x.com"] =
        messageHeaders cfgEx (ascii "B") (ascii "s") [ascii "a@x.com"] ++
          altSection (ascii "B") (ascii "A") (ascii "b") (ascii "<p>h</p>") ++
          tail) ∨
    (ascii "b" ≠ ([] : GoStr) ∧ ascii "<p>h</p>" = ([] : GoStr) ∧
      ∃ tail, TailSpec fsEx txEx (ascii "B") (ascii "storage/f.txt") false tail ∧
      builtBytes cfgEx (ascii "B") (ascii "A") fsEx txEx (ascii "s")
          (ascii "b") (ascii "<p>h</p>") (ascii "storage/f.txt")
          [ascii "a@x.com"] =
        messageHeaders cfgEx (ascii "B") (ascii "s") [ascii "a@x.com"] ++
          (mpPartStart true (ascii "B") textPlainCT ++ ascii "b") ++ tail) ∨
    (ascii "b" = ([] : GoStr) ∧ ascii "<p>h</p>" ≠ ([] : GoStr) ∧
      ∃ tail, TailSpec fsEx txEx (ascii "B") (ascii "storage/f.txt") false tail ∧
      builtBytes cfgEx (ascii "B") (ascii "A") fsEx txEx (ascii "s")
          (ascii "b") (ascii "<p>h</p>") (ascii "storage/f.txt")
          [ascii "a@x.com"] =
        messageHeaders cfgEx (ascii "B") (ascii "s") [ascii "a@x.com"] ++
          (mpPartStart true (ascii "B") textHtmlCT ++ ascii "<p>h</p>") ++ tail) :=
  create_bodyPartTrichotomy cfgEx (ascii "B") (ascii "A") fsEx txEx (ascii "s")
    (ascii "b") (ascii "<p>h</p>") (ascii "storage/f.txt") [ascii "a@x.com"]
    (builtBytes cfgEx (ascii "B") (ascii "A") fsEx txEx (ascii "s")
      (ascii "b") (ascii "<p>h</p>") (ascii "storage/f.txt") [ascii "a@x.com"])
    rfl

/-- C6: for every readable attachment file, the built message carries the
base64 encoding of the file bytes as its attachment part body, and decoding
that encoding gives back exactly the file contents. -/
theorem attachment_base64_roundtrip (cfg : EmailConfig) (bd abd : GoStr)
    (fs : GoStr → Option GoStr) (tx : GoStr → GoStr)
    (subject body htmlBody ap : GoStr) (tos : List GoStr) (msg content : GoStr)
    (hap : ap ≠ []) (hfs : fs ap = some content)
    (hbytes : ∀ x ∈ content, x < 256)
    (hok : createEmailMessage cfg bd abd fs tx subject body htmlBody ap tos =
      .ok msg) :
    (∃ beforePart, msg = beforePart ++ base64Encode content ++ mpClose bd) ∧
    base64Decode (base64Encode content) = content := by
  refine ⟨?_, base64_roundtrip content hbytes⟩
  obtain ⟨bp, hasPart, -, hsh⟩ := create_ok_shape cfg bd abd fs tx subject
    body htmlBody ap tos msg hok
  rcases hsh with ⟨hap0, -⟩ | ⟨-, content2, hc2, hmsg⟩
  · exact absurd hap0 hap
  · rw [hfs] at hc2
    injection hc2 with hc
    subst hc
    exact ⟨messageHeaders cfg bd subject tos ++ bp ++
      mpPartStart (!hasPart) bd (attachmentHeaderLines tx ap),
      by rw [hmsg]; try simp [List.append_assoc]⟩

/-- C6 witness: a concrete file with non-ASCII bytes `[0, 255, 10]` round
trips through the attachment encoding of a concrete built message. -/
theorem attachment_base64_roundtrip_witness :
    (∃ beforePart, builtBytes cfgEx (ascii "B") (ascii "A") fsEx txEx
        (ascii "s") (ascii "b") [] (ascii "storage/f.zzz") [ascii "a@x.com"] =
      beforePart ++ base64Encode [0, 255, 10] ++ mpClose (ascii "B")) ∧
    base64Decode (base64Encode [0, 255, 10]) = [0, 255, 10] :=
  attachment_base64_roundtrip cfgEx (ascii "B") (ascii "A") fsEx txEx
    (ascii "s") (ascii "b") [] (ascii "storage/f.zzz") [ascii "a@x.com"]
    (builtBytes cfgEx (ascii "B") (ascii "A") fsEx txEx (ascii "s")
      (ascii "b") [] (ascii "storage/f.zzz") [ascii "a@x.com"])
    [0, 255, 10] (by decide) (by decide) (by decide) rfl

/-- C7: for every subject (any byte sequence, non-ASCII included) the
encoded header has exactly the form `=?UTF-8?B?<base64>?=`, and RFC 2047
decoding of it returns exactly the original subject. -/
theorem encodeHeader_roundtrip (s : GoStr) (h : ∀ x ∈ s, x < 256) :
    encodeHeader s = ascii "=?UTF-8?B?" ++ base64Encode s ++ ascii "?=" ∧
    rfc2047Decode (encodeHeader s) = some s := by
  refine ⟨rfl, ?_⟩
  have h10 : (ascii "=?UTF-8?B?").length = 10 := rfl
  have h2 : (ascii "?=").length = 2 := rfl
  have hd : (encodeHeader s).drop 10 = base64Encode s ++ ascii "?=" := by
    rw [encodeHeader, List.append_assoc, ← h10, List.drop_left]
  have ht : (base64Encode s ++ ascii "?=").take
      ((base64Encode s ++ ascii "?=").length - 2) = base64Encode s := by
    have hlen : (base64Encode s ++ ascii "?=").length - 2 =
        (base64Encode s).length := by
      simp only [List.length_append, h2]
      omega
    rw [hlen]
    exact List.take_left _ _
  unfold rfc2047Decode
  rw [if_pos ?cond]
  case cond =>
    refine ⟨?_, ?_, ?_⟩
    · rw [ List.isPrefixOf_iff_prefix, encodeHeader, List.append_assoc]
      exact List.prefix_append _ _
    · rw [List.isSuffixOf_iff_suffix, encodeHeader]
      exact List.suffix_append _ _
    · rw [encodeHeader]
      simp only [List.length_append, h10, h2]
      omega
  · rw [hd, ht, base64_roundtrip s h]

/-- C7 witness: the UTF-8 bytes `[226, 152, 131]` of a non-ASCII subject
round trip through header encoding and RFC 2047 decoding. -/
theorem encodeHeader_roundtrip_witness :
    encodeHeader [226, 152, 131] =
      ascii "=?UTF-8?B?" ++ base64Encode [226, 152, 131] ++ ascii "?=" ∧
    rfc2047Decode (encodeHeader [226, 152, 131]) = some [226, 152, 131] :=
  encodeHeader_roundtrip [226, 152, 131] (by decide)

/-- C8 (amended): when the MIME lookup collaborator returns the empty string
for the attachment's extension — as Go's `mime.TypeByExtension` does for an
unknown extension — the built message's attachment part carries an EMPTY
`Content-Type` value (the bare line `Content-Type: \r\n` occurs in the
message); no octet-stream default is applied. -/
theorem attachment_emptyContentType (cfg : EmailConfig) (bd abd : GoStr)
    (fs : GoStr → Option GoStr) (tx : GoStr → GoStr)
    (subject body htmlBody ap : GoStr) (tos : List GoStr) (msg : GoStr)
    (hap : ap ≠ []) (hct : tx (goExt ap) = [])
    (hok : createEmailMessage cfg bd abd fs tx subject body htmlBody ap tos =
      .ok msg) :
    ascii "Content-Type: \r\n" <:+: msg ∧
    attachmentHeaderLines tx ap =
      ascii "Content-Disposition: attachment; filename=\"" ++ goBase ap ++
      ascii "\"\r\n" ++ ascii "Content-Transfer-Encoding: base64\r\n" ++
      ascii "Content-Type: \r\n" := by
  have hsplit : ascii "Content-Type: \r\n" =
      ascii "Content-Type: " ++ ascii "\r\n" := rfl
  have hlines : attachmentHeaderLines tx ap =
      ascii "Content-Disposition: attachment; filename=\"" ++ goBase ap ++
      ascii "\"\r\n" ++ ascii "Content-Transfer-Encoding: base64\r\n" ++
      ascii "Content-Type: \r\n" := by
    rw [attachmentHeaderLines, hct, hsplit]
    simp [List.append_assoc]
  refine ⟨?_, hlines⟩
  obtain ⟨bp, hasPart, -, hsh⟩ := create_ok_shape cfg bd abd fs tx subject
    body htmlBody ap tos msg hok
  rcases hsh with ⟨hap0, -⟩ | ⟨-, content, -, hmsg⟩
  · exact absurd hap0 hap
  refine ⟨messageHeaders cfg bd subject tos ++ bp ++
    ((if (!hasPart) = true then [] else ascii "\r\n") ++ ascii "--" ++ bd ++
      ascii "\r\n" ++
      (ascii "Content-Disposition: attachment; filename=\"" ++ goBase ap ++
       ascii "\"\r\n" ++ ascii "Content-Transfer-Encoding: base64\r\n")),
    ascii "\r\n" ++ base64Encode content ++ mpClose bd, ?_⟩
  rw [hmsg, mpPartStart, hlines]
  simp [List.append_assoc]

set_option maxRecDepth 80000 in
/-- C8 counterexample: for the concrete path `storage/f.zzz`, whose
extension `.zzz` is not in the lookup table (the Go builtin table modelled
by `goTypeByExtension`), the successfully built message contains the bare
header line `Content-Type: \r\n` with an empty value and contains no
`application/octet-stream` content type anywhere. -/
theorem attachment_emptyContentType_counterexample :
    goTypeByExtension (goExt (ascii "storage/f.zzz")) = [] ∧
    ascii "Content-Type: \r\n" <:+:
      builtBytes cfgEx (ascii "B") (ascii "A") fsEx goTypeByExtension
        (ascii "s") (ascii "b") [] (ascii "storage/f.zzz") [ascii "a@x.com"] ∧
    ¬ ascii "application/octet-stream" <:+:
      builtBytes cfgEx (ascii "B") (ascii "A") fsEx goTypeByExtension
        (ascii "s") (ascii "b") [] (ascii "storage/f.zzz") [ascii "a@x.com"] ∧
    builtBytes cfgEx (ascii "B") (ascii "A") fsEx goTypeByExtension
      (ascii "s") (ascii "b") [] (ascii "storage/f.zzz") [ascii "a@x.com"] ≠ [] := by
  refine ⟨by decide, by decide, by decide, by decide⟩

/-- C8 witness for the amended theorem: the concrete unknown-extension build
indeed contains the empty `Content-Type` line. -/
theorem attachment_emptyContentType_witness :
    ascii "Content-Type: \r\n" <:+:
      builtBytes cfgEx (ascii "B2") (ascii "A") fsEx goTypeByExtension
        (ascii "s2") (ascii "b") [] (ascii "storage/f.zzz") [ascii "a@x.com"] ∧
    attachmentHeaderLines goTypeByExtension (ascii "storage/f.zzz") =
      ascii "Content-Disposition: attachment; filename=\"" ++
      goBase (ascii "storage/f.zzz") ++ ascii "\"\r\n" ++
      ascii "Content-Transfer-Encoding: base64\r\n" ++
      ascii "Content-Type: \r\n" :=
  attachment_emptyContentType cfgEx (ascii "B2") (ascii "A") fsEx
    goTypeByExtension (ascii "s2") (ascii "b") [] (ascii "storage/f.zzz")
    [ascii "a@x.com"]
    (builtBytes cfgEx (ascii "B2") (ascii "A") fsEx goTypeByExtension
      (ascii "s2") (ascii "b") [] (ascii "storage/f.zzz") [ascii "a@x.com"])
    (by decide) (by decide) rfl
